import Mathlib

/-!
Shallow embedding of the telemetry acquisition, reconciliation and
traversability-decision pipeline of the robot operator console.

Numbers are modelled as rationals.  Calls to the host math library
(Math.sin, Math.cos, Math.random) are modelled as oracle inputs: each
call site becomes a field of a draw structure (or a function argument),
and theorems that need the library's range guarantees (sin, cos in
[-1,1], random in [0,1)) take them as hypotheses.  JavaScript values
that may be undefined are modelled as Option; a key of a partial object
that may itself be absent is modelled as Option (Option _), with none
for an absent key and some v for a present key of value v (v = none
models a key present with value undefined, which JS object spread does
propagate over defaults).
-/

namespace RobotConsole

/-- Locomotion mode (src/types.ts, enum RobotMode). -/
inductive RobotMode where
  | FLIGHT
  | TRACK
deriving DecidableEq, Repr

/-- Operator-tunable decision thresholds (src/types.ts, AlgorithmConfig). -/
structure AlgorithmConfig where
  maxSlope : ℚ
  maxStepHeight : ℚ
  maxRoughness : ℚ
deriving DecidableEq, Repr

/-- One telemetry record as stored in the History list
(src/types.ts, SensorData).  Every field is Option-valued because a
JavaScript record built by object spread can carry undefined in any
field; a field holding some v models a defined value v. -/
structure SensorData where
  timestamp : Option String
  methane : Option ℚ
  methaneRaw : Option ℚ
  temperature : Option ℚ
  humidity : Option ℚ
  windSpeed : Option ℚ
  battery : Option ℚ
  wifiSignal : Option ℚ
  obstacleDistance : Option ℚ
  slamRmse : Option ℚ
  featureDensity : Option ℚ
  hydraulicDiameter : Option ℚ
  slope : Option ℚ
  stepHeight : Option ℚ
  roughness : Option ℚ
  traversable : Option Bool
deriving DecidableEq, Repr

/-- A record is complete when every field holds a defined value. -/
def isComplete (r : SensorData) : Bool :=
  r.timestamp.isSome && r.methane.isSome && r.methaneRaw.isSome &&
  r.temperature.isSome && r.humidity.isSome && r.windSpeed.isSome &&
  r.battery.isSome && r.wifiSignal.isSome && r.obstacleDistance.isSome &&
  r.slamRmse.isSome && r.featureDensity.isSome &&
  r.hydraulicDiameter.isSome && r.slope.isSome && r.stepHeight.isSome &&
  r.roughness.isSome && r.traversable.isSome

/-- Map position (src/types.ts, Position). -/
structure Position where
  x : ℚ
  y : ℚ
  z : ℚ
  heading : ℚ
deriving DecidableEq, Repr

/-- A trajectory sample (src/types.ts, TrajectoryPoint).  riskLevel is
Option-valued because the code copies a record's methane field into it,
and that field can be undefined at runtime. -/
structure TrajectoryPoint where
  x : ℚ
  y : ℚ
  riskLevel : Option ℚ
  timestamp : Option String
deriving DecidableEq, Repr

/-- JavaScript truthiness of a numeric value-or-undefined:
undefined and 0 are falsy. -/
def jsTruthy : Option ℚ → Bool
  | some q => decide (q ≠ 0)
  | none => false

/-- JavaScript a || b on numeric values-or-undefined. -/
def jsOr (a b : Option ℚ) : Option ℚ :=
  if jsTruthy a then a else b

/-- Decimal rounding, modelling parseFloat(x.toFixed(d)):
round to d decimal digits, ties away from zero on the nonnegative
values this code produces. -/
def roundTo (d : ℕ) (q : ℚ) : ℚ :=
  (round (q * (10 : ℚ) ^ d) : ℤ) / (10 : ℚ) ^ d

/-- A partial telemetry record, Partial SensorData in the source.
Each field is none when the key is absent, and some v when the key is
present with value v (where v = none models value undefined). -/
structure SensorFragment where
  timestamp : Option (Option String) := none
  methane : Option (Option ℚ) := none
  methaneRaw : Option (Option ℚ) := none
  temperature : Option (Option ℚ) := none
  humidity : Option (Option ℚ) := none
  windSpeed : Option (Option ℚ) := none
  battery : Option (Option ℚ) := none
  wifiSignal : Option (Option ℚ) := none
  obstacleDistance : Option (Option ℚ) := none
  slamRmse : Option (Option ℚ) := none
  featureDensity : Option (Option ℚ) := none
  hydraulicDiameter : Option (Option ℚ) := none
  slope : Option (Option ℚ) := none
  stepHeight : Option (Option ℚ) := none
  roughness : Option (Option ℚ) := none
  traversable : Option (Option Bool) := none
deriving DecidableEq, Repr

/-- updateSensorState's completion step (src/unnamed/part_000, lines
44-66): the fragment is spread over a literal of fixed defaults, so a
present key (even one whose value is undefined) overrides the default
and an absent key leaves the default in place. -/
def updateSensorState (now : String) (newData : SensorFragment) : SensorData where
  timestamp := newData.timestamp.getD (some now)
  methane := newData.methane.getD (some 0)
  methaneRaw := newData.methaneRaw.getD (some 0)
  temperature := newData.temperature.getD (some 20)
  humidity := newData.humidity.getD (some 50)
  windSpeed := newData.windSpeed.getD (some 0)
  battery := newData.battery.getD (some 0)
  wifiSignal := newData.wifiSignal.getD (some 0)
  obstacleDistance := newData.obstacleDistance.getD (some 0)
  slamRmse := newData.slamRmse.getD (some 0)
  featureDensity := newData.featureDensity.getD (some 0)
  hydraulicDiameter := newData.hydraulicDiameter.getD (some 0)
  slope := newData.slope.getD (some 0)
  stepHeight := newData.stepHeight.getD (some 0)
  roughness := newData.roughness.getD (some 0)
  traversable := newData.traversable.getD (some true)

/-- setSensorData(prev => [...prev.slice(-49), data]): keep the last 49
entries and append the new one. -/
def historyAppend (prev : List SensorData) (d : SensorData) : List SensorData :=
  prev.drop (prev.length - 49) ++ [d]

/-- setHistory(prev => [...prev.slice(-99), newPoint]): keep the last
99 trajectory points and append the new one. -/
def trajAppend (prev : List TrajectoryPoint) (p : TrajectoryPoint) : List TrajectoryPoint :=
  prev.drop (prev.length - 99) ++ [p]

/-- An inbound WebSocket JSON message restricted to the keys the parser
reads (src/services/WebSocketService.ts, onmessage).  none models an
absent key. -/
structure WsMsg where
  gas : Option ℚ := none
  methane : Option ℚ := none
  temp : Option ℚ := none
  temperature : Option ℚ := none
  hum : Option ℚ := none
  humidity : Option ℚ := none
  bat : Option ℚ := none
  battery : Option ℚ := none
  rssi : Option ℚ := none
  wifi : Option ℚ := none
  dist : Option ℚ := none
  obstacleDistance : Option ℚ := none
  wind : Option ℚ := none
  windSpeed : Option ℚ := none
deriving DecidableEq, Repr

/-- The parsedData object built in WebSocketService.connect's onmessage
handler (src/services/WebSocketService.ts, lines 37-46).  Every listed
key is present in the literal, so each fragment field is some of a
possibly undefined value computed with JavaScript ||. -/
def wsParse (now : String) (data : WsMsg) : SensorFragment where
  methane := some (jsOr data.gas data.methane)
  temperature := some (jsOr data.temp data.temperature)
  humidity := some (jsOr data.hum data.humidity)
  battery := some (jsOr data.bat data.battery)
  wifiSignal := some (jsOr data.rssi data.wifi)
  obstacleDistance := some (jsOr data.dist data.obstacleDistance)
  windSpeed := some (jsOr data.wind data.windSpeed)
  timestamp := some (some now)

/-- The App's WebSocket data listener (src/unnamed/part_000, lines
70-78): every delivered fragment goes straight to updateSensorState,
whose result is appended to the sensor history. -/
def wsOnData (now : String) (data : WsMsg) (sensorData : List SensorData) :
    List SensorData :=
  historyAppend sensorData (updateSensorState now (wsParse now data))

/-- An inbound serial JSON object restricted to the keys
SerialService.parseData reads (src/services/WebSocketService.ts
bundle, parseData). -/
structure SerialMsg where
  methane : Option ℚ := none
  m : Option ℚ := none
  temperature : Option ℚ := none
  t : Option ℚ := none
  humidity : Option ℚ := none
  h : Option ℚ := none
  battery : Option ℚ := none
  b : Option ℚ := none
  rssi : Option ℚ := none
  s : Option ℚ := none
deriving DecidableEq, Repr

/-- SerialService.parseData (lines 201-221 of the service bundle):
none input models a chunk with no parseable JSON object (the function
returns null); otherwise each produced value falls back through the
short alias to a literal 0, so every produced key is defined. -/
def parseData (now : String) (raw : Option SerialMsg) : Option SensorFragment :=
  match raw with
  | none => none
  | some parsed =>
      some { methane := some (jsOr (jsOr parsed.methane parsed.m) (some 0))
             temperature := some (jsOr (jsOr parsed.temperature parsed.t) (some 0))
             humidity := some (jsOr (jsOr parsed.humidity parsed.h) (some 0))
             battery := some (jsOr (jsOr parsed.battery parsed.b) (some 0))
             wifiSignal := some (jsOr (jsOr parsed.rssi parsed.s) (some 0))
             timestamp := some (some now) }

/-- handleSerialData (src/unnamed/part_000, lines 35-41): parse the raw
chunk and append unless parsing failed or the parsed fragment's methane
key is undefined or absent. -/
def handleSerialData (now : String) (raw : Option SerialMsg)
    (sensorData : List SensorData) : List SensorData :=
  match parseData now raw with
  | none => sensorData
  | some parsed =>
      match parsed.methane with
      | some (some _) => historyAppend sensorData (updateSensorState now parsed)
      | _ => sensorData

/-- Whether a WebSocket message carries a recognized gas-related key. -/
def wsHasGasKey (data : WsMsg) : Bool :=
  data.gas.isSome || data.methane.isSome

/-- Whether a serial message carries a recognized gas-related key. -/
def serialHasGasKey (parsed : SerialMsg) : Bool :=
  parsed.methane.isSome || parsed.m.isSome

/-- Oracle inputs of one generateSensorData call
(src/services/mockDataService.ts): one field per Math.sin, Math.cos or
Math.random call, in source order, plus the advanced tick counter and
the formatted clock time. -/
structure SynthDraws where
  nowStr : String
  currentTime : ℚ
  sin1 : ℚ
  rand1 : ℚ
  sin2 : ℚ
  rand2 : ℚ
  rand3 : ℚ
  sin3 : ℚ
  cos4 : ℚ
  rand4 : ℚ
  sin5 : ℚ
  randSpike : ℚ
  rand5 : ℚ
  rand6 : ℚ
  rand7 : ℚ
  rand8 : ℚ
  rand9 : ℚ
deriving DecidableEq, Repr

/-- Per-field threshold resolution (config?.maxSlope ?? DEFAULT etc.,
mockDataService.ts lines 18-20), with the file's default constants. -/
def resolveConfig (config : Option AlgorithmConfig) : AlgorithmConfig where
  maxSlope := (config.map AlgorithmConfig.maxSlope).getD 35
  maxStepHeight := (config.map AlgorithmConfig.maxStepHeight).getD (8 / 25)
  maxRoughness := (config.map AlgorithmConfig.maxRoughness).getD (1 / 20)

/-- The traversability decision expression (mockDataService.ts line 43,
isPassable): three independent strict comparisons joined by AND. -/
def evaluate (slope stepHeight roughness : ℚ) (config : AlgorithmConfig) : Bool :=
  decide (slope < config.maxSlope) && decide (stepHeight < config.maxStepHeight) &&
    decide (roughness < config.maxRoughness)

/-- Raw slope before rounding: Math.abs(Math.sin(t*0.3)) * 40. -/
def slopeOf (d : SynthDraws) : ℚ := |d.sin3| * 40

/-- Raw step height before rounding: Math.abs(Math.cos(t*0.4)) * 0.4. -/
def stepHeightOf (d : SynthDraws) : ℚ := |d.cos4| * (2 / 5)

/-- Raw roughness: Math.random() * 0.08. -/
def roughnessOf (d : SynthDraws) : ℚ := d.rand4 * (2 / 25)

/-- Smooth gas baseline: 0.4 + Math.sin(t*0.1) * 0.3. -/
def baseSignalOf (d : SynthDraws) : ℚ := 2 / 5 + d.sin1 * (3 / 10)

/-- Point cloud feature density: 50 + Math.sin(t*0.2)*30 + Math.random()*10. -/
def featureDensityOf (d : SynthDraws) : ℚ := 50 + d.sin2 * 30 + d.rand2 * 10

/-- generateSensorData (mockDataService.ts lines 13-70), with the math
library calls supplied through d.  The verdict is computed from the
unrounded slope, step height and roughness; the stored copies are
rounded to the source's field-specific decimal precision. -/
def generateSensorData (mode : RobotMode) (config : Option AlgorithmConfig)
    (d : SynthDraws) : SensorData :=
  let limits := resolveConfig config
  let noise := (d.rand1 - 1 / 2) * (2 / 5)
  let methaneRaw := max 0 (baseSignalOf d + noise)
  let methaneGNN := max 0 (baseSignalOf d)
  let slamRmse := max (1 / 50) (100 / (featureDensityOf d + 10) * (1 / 20) + d.rand3 * (1 / 100))
  let isPassable := evaluate (slopeOf d) (stepHeightOf d) (roughnessOf d) limits
  let hydraulicDiameter := 3 + d.sin5
  let tempSpike : ℚ := if d.randSpike > 19 / 20 then 12 else 0
  { timestamp := some d.nowStr
    methane := some (roundTo 3 methaneGNN)
    methaneRaw := some (roundTo 3 methaneRaw)
    temperature := some (24 + d.rand5 * 2 + tempSpike)
    humidity := some (85 + d.rand6 * 5)
    windSpeed := some (if mode = RobotMode.FLIGHT then 7 / 2 + d.rand7 else 1 / 2 + d.rand7)
    battery := some (max 0 (100 - d.currentTime * (1 / 20)))
    wifiSignal := some (80 + d.rand8 * 20)
    obstacleDistance := some (5 / 2 + d.rand9 * 5)
    slamRmse := some (roundTo 3 slamRmse)
    featureDensity := some ((round (featureDensityOf d) : ℤ) : ℚ)
    hydraulicDiameter := some (roundTo 2 hydraulicDiameter)
    slope := some (roundTo 1 (slopeOf d))
    stepHeight := some (roundTo 2 (stepHeightOf d))
    roughness := some (roundTo 3 (roughnessOf d))
    traversable := some isPassable }

/-- generatePosition (mockDataService.ts lines 73-85): circular orbit
around (50, 50) with radius 30.  The cosine and sine of the current
angle, and the heading (which divides by the transcendental pi), are
supplied as oracle values. -/
def generatePosition (mode : RobotMode) (cosA sinA heading : ℚ) : Position where
  x := 50 + 30 * cosA
  y := 50 + 30 * sinA
  z := if mode = RobotMode.FLIGHT then 3 / 2 else 1 / 5
  heading := heading

/-- generateInitialTrajectory (mockDataService.ts lines 88-100):
100 points on the orbit of angle 0.1*i around (50, 50), radius 30,
risk 0.8 in the quadrant with x above and y below the center and 0.1
elsewhere, plus Math.random()*0.2 jitter; no timestamp is stored.
cosF and sinF stand for Math.cos and Math.sin, jitter i for the i-th
Math.random() draw. -/
def generateInitialTrajectory (cosF sinF : ℚ → ℚ) (jitter : ℕ → ℚ) :
    List TrajectoryPoint :=
  (List.range 100).map (fun (i : ℕ) =>
    let angle : ℚ := (i : ℚ) * (1 / 10)
    let x : ℚ := 50 + 30 * cosF angle
    let y : ℚ := 50 + 30 * sinF angle
    let risk : ℚ := if x > 50 ∧ y < 50 then 4 / 5 else 1 / 10
    { x := x, y := y, riskLevel := some (risk + jitter i * (1 / 5)), timestamp := none })

/-- One iteration of the disconnected (synthetic) data loop
(src/unnamed/part_000, lines 122-144): synthesize a record with the
current config, append it to the sensor history, generate a position,
and append a trajectory point carrying the record's methane as risk. -/
def disconnectedTick (mode : RobotMode) (algoConfig : AlgorithmConfig)
    (d : SynthDraws) (cosA sinA heading : ℚ)
    (sensorData : List SensorData) (history : List TrajectoryPoint) :
    List SensorData × Position × List TrajectoryPoint :=
  let newData := generateSensorData mode (some algoConfig) d
  let newPos := generatePosition mode cosA sinA heading
  (historyAppend sensorData newData, newPos,
   trajAppend history
     { x := newPos.x, y := newPos.y, riskLevel := newData.methane,
       timestamp := newData.timestamp })

/-- One iteration of the connected data loop (src/unnamed/part_000,
lines 103-120): keep simulating the position, and append a trajectory
point whose risk is the methane field of the latest sensor record
(or 0 when the history is empty). -/
def connectedTick (mode : RobotMode) (cosA sinA heading : ℚ) (now : String)
    (sensorData : List SensorData) (history : List TrajectoryPoint) :
    Position × List TrajectoryPoint :=
  let newPos := generatePosition mode cosA sinA heading
  let latestMethane := (sensorData.getLast?.map SensorData.methane).getD (some 0)
  (newPos,
   trajAppend history
     { x := newPos.x, y := newPos.y, riskLevel := latestMethane, timestamp := some now })

/-- ConfigModal.handleSave (src/components/ConfigModal.tsx, lines
41-44) composed with onSave = setAlgoConfig (src/unnamed/part_000):
the local config is handed to the state setter unconditionally, so the
new active config is the saved object whatever the prior one was. -/
def handleSave (localConfig : AlgorithmConfig) (_priorConfig : AlgorithmConfig) :
    AlgorithmConfig :=
  localConfig

/-- The numeric ranges of the three threshold sliders
(src/components/ConfigModal.tsx, min and max input attributes). -/
def configInRange (c : AlgorithmConfig) : Bool :=
  decide (10 ≤ c.maxSlope) && decide (c.maxSlope ≤ 60) &&
  decide (1 / 10 ≤ c.maxStepHeight) && decide (c.maxStepHeight ≤ 4 / 5) &&
  decide (1 / 100 ≤ c.maxRoughness) && decide (c.maxRoughness ≤ 1 / 5)

/-- The App's default algorithm configuration (src/unnamed/part_000,
initial useState value). -/
def defaultConfig : AlgorithmConfig where
  maxSlope := 35
  maxStepHeight := 8 / 25
  maxRoughness := 1 / 20

/-- The replaced configuration used by the spec's config-change
scenario. -/
def newConfig : AlgorithmConfig where
  maxSlope := 20
  maxStepHeight := 1 / 5
  maxRoughness := 1 / 50

/- Helper lemmas. -/

lemma historyAppend_length (prev : List SensorData) (d : SensorData) :
    (historyAppend prev d).length ≤ 50 := by
  simp only [historyAppend, List.length_append, List.length_drop, List.length_singleton]
  omega

lemma trajAppend_length (prev : List TrajectoryPoint) (p : TrajectoryPoint) :
    (trajAppend prev p).length ≤ 100 := by
  simp only [trajAppend, List.length_append, List.length_drop, List.length_singleton]
  omega

lemma historyAppend_suffix (prev : List SensorData) (d : SensorData) :
    historyAppend prev d <:+ prev ++ [d] := by
  obtain ⟨s, hs⟩ := List.drop_suffix (prev.length - 49) prev
  exact ⟨s, by rw [historyAppend, ← List.append_assoc, hs]⟩

lemma trajAppend_suffix (prev : List TrajectoryPoint) (p : TrajectoryPoint) :
    trajAppend prev p <:+ prev ++ [p] := by
  obtain ⟨s, hs⟩ := List.drop_suffix (prev.length - 99) prev
  exact ⟨s, by rw [trajAppend, ← List.append_assoc, hs]⟩

lemma generateInitialTrajectory_length (cosF sinF : ℚ → ℚ) (jitter : ℕ → ℚ) :
    (generateInitialTrajectory cosF sinF jitter).length = 100 := by
  simp [generateInitialTrajectory]

lemma round_mono_rat {a b : ℚ} (h : a ≤ b) : round a ≤ round b := by
  rw [round_eq, round_eq]
  exact Int.floor_le_floor (by linarith)

lemma roundTo_nonneg (d : ℕ) {q : ℚ} (h : 0 ≤ q) : 0 ≤ roundTo d q := by
  unfold roundTo
  apply div_nonneg _ (by positivity)
  have h0 : (0 : ℤ) ≤ round (q * 10 ^ d) := by
    rw [round_eq]
    exact Int.le_floor.mpr (by push_cast; positivity)
  exact_mod_cast h0

lemma roundTo_mono (d : ℕ) {a b : ℚ} (h : a ≤ b) : roundTo d a ≤ roundTo d b := by
  unfold roundTo
  have hr : round (a * 10 ^ d) ≤ round (b * 10 ^ d) :=
    round_mono_rat (mul_le_mul_of_nonneg_right h (by positivity))
  exact div_le_div_of_nonneg_right (by exact_mod_cast hr) (by positivity)

lemma jsOr_zero_eq_some (a : Option ℚ) : ∃ v, jsOr a (some 0) = some v := by
  cases a with
  | none => exact ⟨0, rfl⟩
  | some q =>
      by_cases h : q = 0
      · exact ⟨0, by simp [jsOr, jsTruthy, h]⟩
      · exact ⟨q, by simp [jsOr, jsTruthy, h]⟩

/- Claim theorems. -/

/-- Claim C1: a synthesized record's traversability verdict is exactly
the evaluator applied to the raw slope, step height and roughness and
the resolved config; the evaluator is true iff all three measurements
are strictly below their limits, any measurement equal to its limit
forces false, and the concrete example evaluate(35, 0.1, 0.01) against
maxSlope 35, maxStepHeight 0.32, maxRoughness 0.05 is false. -/
theorem claim_C1 :
    (∀ mode config d, (generateSensorData mode config d).traversable =
      some (evaluate (slopeOf d) (stepHeightOf d) (roughnessOf d) (resolveConfig config))) ∧
    (∀ (s h r : ℚ) (c : AlgorithmConfig),
      evaluate s h r c = true ↔
        s < c.maxSlope ∧ h < c.maxStepHeight ∧ r < c.maxRoughness) ∧
    (∀ (s h r : ℚ) (c : AlgorithmConfig),
      s = c.maxSlope ∨ h = c.maxStepHeight ∨ r = c.maxRoughness →
        evaluate s h r c = false) ∧
    evaluate 35 (1 / 10) (1 / 100) ⟨35, 8 / 25, 1 / 20⟩ = false := by
  refine ⟨fun mode config d => rfl, fun s h r c => ?_, fun s h r c hc => ?_, by decide⟩
  · simp [evaluate, and_assoc]
  · rcases hc with h1 | h1 | h1 <;> simp [evaluate, h1]

/-- Claim C1 witness: the evaluator at concrete measurements, with a
slope tie, a step-height tie and an all-below case. -/
theorem claim_C1_witness :
    evaluate 35 (1 / 10) (1 / 100) ⟨35, 8 / 25, 1 / 20⟩ = false ∧
    evaluate (8 / 25) (8 / 25) 0 ⟨35, 8 / 25, 1 / 20⟩ = false ∧
    evaluate 20 (1 / 10) (1 / 100) ⟨35, 8 / 25, 1 / 20⟩ = true :=
  ⟨claim_C1.2.2.2,
   claim_C1.2.2.1 (8 / 25) (8 / 25) 0 ⟨35, 8 / 25, 1 / 20⟩ (Or.inr (Or.inl rfl)),
   (claim_C1.2.1 20 (1 / 10) (1 / 100) ⟨35, 8 / 25, 1 / 20⟩).2
     ⟨by norm_num, by norm_num, by norm_num⟩⟩

/-- A concrete complete prior record whose temperature is 30. -/
def priorRecord : SensorData where
  timestamp := some "10:00:00"
  methane := some (1 / 2)
  methaneRaw := some (3 / 5)
  temperature := some 30
  humidity := some 40
  windSpeed := some 1
  battery := some 90
  wifiSignal := some 80
  obstacleDistance := some 3
  slamRmse := some (1 / 20)
  featureDensity := some 60
  hydraulicDiameter := some 3
  slope := some 10
  stepHeight := some (1 / 10)
  roughness := some (1 / 100)
  traversable := some true

/-- The fragment carrying only battery = 42. -/
def batteryFragment : SensorFragment := { battery := some (some 42) }

/-- Claim C2 counterexample: merging the battery-only fragment does not
retain the prior record's values for absent fields.  The merged
record's temperature is the fixed default 20 while the prior record's
is 30, so the merge result differs from the prior record with only
battery replaced by 42. -/
theorem claim_C2_cex :
    (updateSensorState "10:00:01" batteryFragment).temperature = some 20 ∧
    priorRecord.temperature = some 30 ∧
    updateSensorState "10:00:01" batteryFragment ≠
      { priorRecord with battery := some 42 } := by
  refine ⟨rfl, rfl, fun h => ?_⟩
  have h2 := congrArg SensorData.temperature h
  simp [updateSensorState, batteryFragment, priorRecord] at h2

/-- Claim C2 amended: merging a fragment is independent of any prior
record; for every fragment, every field absent from the fragment is
set to its fixed default (timestamp now, temperature 20, humidity 50,
traversable true, the other numeric fields 0), every field present in
the fragment takes the fragment's value, and merging a battery-only
fragment yields the all-defaults record with battery replaced by the
fragment's value. -/
theorem claim_C2_amended :
    ∀ (now : String) (frag : SensorFragment),
      ((frag.timestamp = none → (updateSensorState now frag).timestamp = some now) ∧
        ∀ v, frag.timestamp = some v → (updateSensorState now frag).timestamp = v) ∧
      ((frag.methane = none → (updateSensorState now frag).methane = some 0) ∧
        ∀ v, frag.methane = some v → (updateSensorState now frag).methane = v) ∧
      ((frag.methaneRaw = none → (updateSensorState now frag).methaneRaw = some 0) ∧
        ∀ v, frag.methaneRaw = some v → (updateSensorState now frag).methaneRaw = v) ∧
      ((frag.temperature = none → (updateSensorState now frag).temperature = some 20) ∧
        ∀ v, frag.temperature = some v → (updateSensorState now frag).temperature = v) ∧
      ((frag.humidity = none → (updateSensorState now frag).humidity = some 50) ∧
        ∀ v, frag.humidity = some v → (updateSensorState now frag).humidity = v) ∧
      ((frag.windSpeed = none → (updateSensorState now frag).windSpeed = some 0) ∧
        ∀ v, frag.windSpeed = some v → (updateSensorState now frag).windSpeed = v) ∧
      ((frag.battery = none → (updateSensorState now frag).battery = some 0) ∧
        ∀ v, frag.battery = some v → (updateSensorState now frag).battery = v) ∧
      ((frag.wifiSignal = none → (updateSensorState now frag).wifiSignal = some 0) ∧
        ∀ v, frag.wifiSignal = some v → (updateSensorState now frag).wifiSignal = v) ∧
      ((frag.obstacleDistance = none →
          (updateSensorState now frag).obstacleDistance = some 0) ∧
        ∀ v, frag.obstacleDistance = some v →
          (updateSensorState now frag).obstacleDistance = v) ∧
      ((frag.slamRmse = none → (updateSensorState now frag).slamRmse = some 0) ∧
        ∀ v, frag.slamRmse = some v → (updateSensorState now frag).slamRmse = v) ∧
      ((frag.featureDensity = none →
          (updateSensorState now frag).featureDensity = some 0) ∧
        ∀ v, frag.featureDensity = some v →
          (updateSensorState now frag).featureDensity = v) ∧
      ((frag.hydraulicDiameter = none →
          (updateSensorState now frag).hydraulicDiameter = some 0) ∧
        ∀ v, frag.hydraulicDiameter = some v →
          (updateSensorState now frag).hydraulicDiameter = v) ∧
      ((frag.slope = none → (updateSensorState now frag).slope = some 0) ∧
        ∀ v, frag.slope = some v → (updateSensorState now frag).slope = v) ∧
      ((frag.stepHeight = none → (updateSensorState now frag).stepHeight = some 0) ∧
        ∀ v, frag.stepHeight = some v → (updateSensorState now frag).stepHeight = v) ∧
      ((frag.roughness = none → (updateSensorState now frag).roughness = some 0) ∧
        ∀ v, frag.roughness = some v → (updateSensorState now frag).roughness = v) ∧
      ((frag.traversable = none → (updateSensorState now frag).traversable = some true) ∧
        ∀ v, frag.traversable = some v → (updateSensorState now frag).traversable = v) ∧
      (∀ v : Option ℚ, updateSensorState now { battery := some v } =
        { timestamp := some now, methane := some 0, methaneRaw := some 0,
          temperature := some 20, humidity := some 50, windSpeed := some 0,
          battery := v, wifiSignal := some 0, obstacleDistance := some 0,
          slamRmse := some 0, featureDensity := some 0,
          hydraulicDiameter := some 0, slope := some 0, stepHeight := some 0,
          roughness := some 0, traversable := some true }) := by
  intro now frag
  refine ⟨⟨fun h => ?_, fun v h => ?_⟩, ⟨fun h => ?_, fun v h => ?_⟩,
    ⟨fun h => ?_, fun v h => ?_⟩, ⟨fun h => ?_, fun v h => ?_⟩,
    ⟨fun h => ?_, fun v h => ?_⟩, ⟨fun h => ?_, fun v h => ?_⟩,
    ⟨fun h => ?_, fun v h => ?_⟩, ⟨fun h => ?_, fun v h => ?_⟩,
    ⟨fun h => ?_, fun v h => ?_⟩, ⟨fun h => ?_, fun v h => ?_⟩,
    ⟨fun h => ?_, fun v h => ?_⟩, ⟨fun h => ?_, fun v h => ?_⟩,
    ⟨fun h => ?_, fun v h => ?_⟩, ⟨fun h => ?_, fun v h => ?_⟩,
    ⟨fun h => ?_, fun v h => ?_⟩, ⟨fun h => ?_, fun v h => ?_⟩,
    fun v => rfl⟩
  all_goals simp [updateSensorState, h]

/-- Claim C2 amended witness: on the battery-only fragment, the absent
temperature field takes the default 20 and the present battery field
takes the fragment's value 42. -/
theorem claim_C2_amended_witness :
    (updateSensorState "10:00:01" batteryFragment).temperature = some 20 ∧
    (updateSensorState "10:00:01" batteryFragment).battery = some 42 :=
  ⟨((claim_C2_amended "10:00:01" batteryFragment).2.2.2.1).1 rfl,
   ((claim_C2_amended "10:00:01" batteryFragment).2.2.2.2.2.2.1).2 (some 42) rfl⟩

/-- Claim C3: from any store within bounds, any sequence of appends
keeps History within 50 records and the Trajectory within 100 points
(the initial stores — the empty sensor list and the 100-point seed —
are within bounds), and every append produces a suffix of the old list
extended by the new entry, so eviction drops the oldest entries first
and never reorders the survivors. -/
theorem claim_C3 :
    (∀ (ops : List SensorData) (s0 : List SensorData), s0.length ≤ 50 →
      (ops.foldl historyAppend s0).length ≤ 50) ∧
    (∀ (ps : List TrajectoryPoint) (t0 : List TrajectoryPoint), t0.length ≤ 100 →
      (ps.foldl trajAppend t0).length ≤ 100) ∧
    (([] : List SensorData).length ≤ 50) ∧
    (∀ cosF sinF jitter, (generateInitialTrajectory cosF sinF jitter).length ≤ 100) ∧
    (∀ prev d, historyAppend prev d <:+ prev ++ [d]) ∧
    (∀ prev p, trajAppend prev p <:+ prev ++ [p]) := by
  refine ⟨?_, ?_, by simp, ?_, historyAppend_suffix, trajAppend_suffix⟩
  · intro ops
    induction ops with
    | nil => exact fun s0 h => h
    | cons a as ih => exact fun s0 _ => ih _ (historyAppend_length s0 a)
  · intro ps
    induction ps with
    | nil => exact fun t0 h => h
    | cons a as ih => exact fun t0 _ => ih _ (trajAppend_length t0 a)
  · intro cosF sinF jitter
    exact le_of_eq (generateInitialTrajectory_length cosF sinF jitter)

/-- Claim C3 witness: bounds instantiated on concrete stores. -/
theorem claim_C3_witness :
    (([priorRecord, priorRecord] : List SensorData).foldl historyAppend []).length ≤ 50 ∧
    (([] : List TrajectoryPoint).foldl trajAppend
      (generateInitialTrajectory (fun _ => 1) (fun _ => 0) (fun _ => 0))).length ≤ 100 :=
  ⟨claim_C3.1 [priorRecord, priorRecord] [] (Nat.zero_le 50),
   claim_C3.2.1 [] _ (claim_C3.2.2.2.1 (fun _ => 1) (fun _ => 0) (fun _ => 0))⟩

/-- The WebSocket message whose gas key carries the value 0. -/
def gasZeroMsg : WsMsg := { gas := some 0 }

/-- Claim C4, evaluated at the failing input: the WebSocket message
with gas = 0 parses to a fragment whose methane key is present but
undefined (data.gas || data.methane treats 0 as falsy and falls through
to the absent methane key), the merged record therefore has methane
undefined rather than a defaulted value, it is not complete, and it is
nevertheless appended to History. -/
theorem claim_C4_bug :
    (wsParse "12:00:00" gasZeroMsg).methane = some none ∧
    (updateSensorState "12:00:00" (wsParse "12:00:00" gasZeroMsg)).methane = none ∧
    isComplete (updateSensorState "12:00:00" (wsParse "12:00:00" gasZeroMsg)) = false ∧
    wsOnData "12:00:00" gasZeroMsg [] =
      [updateSensorState "12:00:00" (wsParse "12:00:00" gasZeroMsg)] :=
  ⟨rfl, rfl, rfl, rfl⟩

/-- The out-of-range configuration used against claim C5. -/
def outOfRangeConfig : AlgorithmConfig where
  maxSlope := 999
  maxStepHeight := 999
  maxRoughness := 999

/-- Claim C5 counterexample: saving an out-of-range configuration is
not rejected; handleSave hands the object to the state setter
unconditionally, so the active configuration becomes the out-of-range
object and the prior valid configuration does not remain active. -/
theorem claim_C5_cex :
    configInRange outOfRangeConfig = false ∧
    handleSave outOfRangeConfig defaultConfig = outOfRangeConfig ∧
    handleSave outOfRangeConfig defaultConfig ≠ defaultConfig := by
  refine ⟨by decide, rfl, fun h => ?_⟩
  have h2 := congrArg AlgorithmConfig.maxSlope h
  simp [handleSave, outOfRangeConfig, defaultConfig] at h2

/-- Claim C5 amended: replacing the configuration performs no range
validation at the save boundary; every submitted configuration, in
range or not, atomically replaces the active one, so an out-of-range
save displaces the prior valid configuration (the documented ranges
appear only as slider bounds in the editing widget). -/
theorem claim_C5_amended :
    ∀ c prior : AlgorithmConfig, configInRange prior = true →
      configInRange c = false →
      handleSave c prior = c ∧ handleSave c prior ≠ prior := by
  intro c prior hp hc
  refine ⟨rfl, fun h => ?_⟩
  rw [handleSave] at h
  rw [h, hp] at hc
  exact Bool.noConfusion hc

/-- Claim C5 amended witness: the default configuration is in range,
the 999 configuration is not, and saving the latter replaces the
former. -/
theorem claim_C5_amended_witness :
    handleSave outOfRangeConfig defaultConfig = outOfRangeConfig ∧
    handleSave outOfRangeConfig defaultConfig ≠ defaultConfig :=
  claim_C5_amended outOfRangeConfig defaultConfig
    (by norm_num [configInRange, defaultConfig]) (by decide)

/-- The serial message carrying only t = 24, no gas-related key. -/
def noGasSerialMsg : SerialMsg := { t := some 24 }

/-- The WebSocket message with no keys at all. -/
def emptyWsMsg : WsMsg := {}

/-- Claim C6 counterexample: fragments with no recognized gas-related
key are not dropped.  The parseable serial fragment with only a
temperature key has methane defaulted to 0, passes the guard and is
appended; the WebSocket path appends even a fragment with no keys at
all. -/
theorem claim_C6_cex :
    serialHasGasKey noGasSerialMsg = false ∧
    (handleSerialData "12:00:00" (some noGasSerialMsg) []).length = 1 ∧
    wsHasGasKey emptyWsMsg = false ∧
    (wsOnData "12:00:00" emptyWsMsg []).length = 1 :=
  ⟨rfl, rfl, rfl, rfl⟩

/-- Claim C6 amended: on the serial path only an unparseable chunk is
dropped; every parsed serial fragment has a defined methane value
(defaulted to 0 when no gas key contributes), so it passes the guard
and is appended.  The WebSocket path appends every delivered fragment
unconditionally. -/
theorem claim_C6_amended :
    (∀ now hist, handleSerialData now none hist = hist) ∧
    (∀ now msg hist, ∃ frag, parseData now (some msg) = some frag ∧
      (∃ v, frag.methane = some (some v)) ∧
      handleSerialData now (some msg) hist =
        historyAppend hist (updateSensorState now frag)) ∧
    (∀ now msg hist, wsOnData now msg hist =
      historyAppend hist (updateSensorState now (wsParse now msg))) := by
  refine ⟨fun now hist => rfl, fun now msg hist => ?_, fun now msg hist => rfl⟩
  obtain ⟨v, hv⟩ := jsOr_zero_eq_some (jsOr msg.methane msg.m)
  refine ⟨_, rfl, ⟨v, by simp [parseData, hv]⟩, ?_⟩
  simp only [handleSerialData, parseData, hv]

/-- Claim C7: with the replaced config (maxSlope 20, maxStepHeight 0.2,
maxRoughness 0.02) fed to the synthetic tick, every synthesized record
whose raw slope, step height or roughness reaches or exceeds the
corresponding new threshold carries a false verdict, and the tick
appends exactly that record to History — the config passed to the tick
is consulted afresh on every synthesis, so a replacement takes effect
on the next tick with no restart. -/
theorem claim_C7 :
    ∀ mode d (cosA sinA heading : ℚ) sensorData history,
      (20 ≤ slopeOf d ∨ 1 / 5 ≤ stepHeightOf d ∨ 1 / 50 ≤ roughnessOf d) →
      (generateSensorData mode (some newConfig) d).traversable = some false ∧
      (disconnectedTick mode newConfig d cosA sinA heading sensorData history).1 =
        historyAppend sensorData (generateSensorData mode (some newConfig) d) := by
  intro mode d cosA sinA heading sensorData history hc
  refine ⟨?_, rfl⟩
  have h1 : (generateSensorData mode (some newConfig) d).traversable =
      some (evaluate (slopeOf d) (stepHeightOf d) (roughnessOf d) newConfig) := rfl
  rw [h1]
  rcases hc with h3 | h3 | h3
  · have hx : decide (slopeOf d < newConfig.maxSlope) = false :=
      decide_eq_false (not_lt.mpr (le_trans (by norm_num [newConfig]) h3))
    simp [evaluate, hx]
  · have hx : decide (stepHeightOf d < newConfig.maxStepHeight) = false :=
      decide_eq_false (not_lt.mpr (le_trans (by norm_num [newConfig]) h3))
    simp [evaluate, hx]
  · have hx : decide (roughnessOf d < newConfig.maxRoughness) = false :=
      decide_eq_false (not_lt.mpr (le_trans (by norm_num [newConfig]) h3))
    simp [evaluate, hx]

/-- A concrete draw vector whose raw slope is 40. -/
def witnessDraws : SynthDraws where
  nowStr := "00:00:01"
  currentTime := 1
  sin1 := 0
  rand1 := 0
  sin2 := 0
  rand2 := 0
  rand3 := 0
  sin3 := 1
  cos4 := 0
  rand4 := 0
  sin5 := 0
  randSpike := 0
  rand5 := 0
  rand6 := 0
  rand7 := 0
  rand8 := 0
  rand9 := 0

/-- Claim C7 witness: a synthesis whose raw slope 40 reaches the new
maxSlope 20 yields a false verdict. -/
theorem claim_C7_witness :
    (generateSensorData RobotMode.TRACK (some newConfig) witnessDraws).traversable =
      some false :=
  (claim_C7 RobotMode.TRACK witnessDraws 0 0 0 [] []
    (Or.inl (by norm_num [slopeOf, witnessDraws, abs_one]))).1

/-- The WebSocket message whose gas key carries the value 5. -/
def gasFiveMsg : WsMsg := { gas := some 5 }

/-- Claim C8 counterexample: a trajectory point stored by the connected
tick carries riskLevel 5 — the methane value of an externally supplied
record — which lies outside the closed interval 0 to 1, so stored risk
levels are not clamped to that domain. -/
theorem claim_C8_cex :
    ((connectedTick RobotMode.TRACK 0 0 0 "12:00:01"
        [updateSensorState "12:00:00" (wsParse "12:00:00" gasFiveMsg)] []).2.map
      TrajectoryPoint.riskLevel) = [some 5] ∧ ¬((5 : ℚ) ≤ 1) :=
  ⟨rfl, by norm_num⟩

/-- Claim C8 amended: riskLevel is never clamped.  Seed points lie in
the 0 to 1 range because their formula keeps them there (given the
random draws' 0 to 1 range), and synthetic ticks append risk levels in
0 to 1 because the synthesized methane is bounded; but connected ticks
copy the latest record's methane into riskLevel unchanged, so an
external methane outside 0 to 1 is stored as-is. -/
theorem claim_C8_amended :
    (∀ (cosF sinF : ℚ → ℚ) (jitter : ℕ → ℚ), (∀ i, 0 ≤ jitter i ∧ jitter i < 1) →
      ∀ p ∈ generateInitialTrajectory cosF sinF jitter,
        ∃ r, p.riskLevel = some r ∧ 0 ≤ r ∧ r ≤ 1) ∧
    (∀ mode cfg d (cosA sinA heading : ℚ) s0 t0, |d.sin1| ≤ 1 →
      ∃ r, ((disconnectedTick mode cfg d cosA sinA heading s0 t0).2.2.getLast?.map
          TrajectoryPoint.riskLevel) = some (some r) ∧ 0 ≤ r ∧ r ≤ 1) ∧
    (∀ mode (cosA sinA heading : ℚ) now s0 r0 t0,
      ((connectedTick mode cosA sinA heading now (s0 ++ [r0]) t0).2.getLast?.map
          TrajectoryPoint.riskLevel) = some r0.methane) := by
  refine ⟨?_, ?_, ?_⟩
  · intro cosF sinF jitter hj p hp
    rw [generateInitialTrajectory] at hp
    obtain ⟨i, hi, hpi⟩ := List.mem_map.mp hp
    obtain ⟨hj0, hj1⟩ := hj i
    subst hpi
    refine ⟨_, rfl, ?_, ?_⟩ <;> dsimp only <;> split_ifs <;> linarith
  · intro mode cfg d cosA sinA heading s0 t0 hs
    have habs := abs_le.mp hs
    refine ⟨roundTo 3 (max 0 (baseSignalOf d)), ?_, ?_, ?_⟩
    · simp [disconnectedTick, trajAppend, List.getLast?_concat, generateSensorData]
    · exact roundTo_nonneg 3 (le_max_left 0 _)
    · have hb : max 0 (baseSignalOf d) ≤ 7 / 10 := by
        apply max_le (by norm_num)
        unfold baseSignalOf
        nlinarith [habs.2]
      calc roundTo 3 (max 0 (baseSignalOf d)) ≤ roundTo 3 (7 / 10) := roundTo_mono 3 hb
        _ = 7 / 10 := by norm_num [roundTo]
        _ ≤ 1 := by norm_num
  · intro mode cosA sinA heading now s0 r0 t0
    simp [connectedTick, trajAppend, List.getLast?_concat]

/-- Claim C8 amended witness: the synthetic-tick bound instantiated on
the concrete draw vector. -/
theorem claim_C8_amended_witness :
    ∃ r, ((disconnectedTick RobotMode.TRACK newConfig witnessDraws 0 0 0 []
        []).2.2.getLast?.map TrajectoryPoint.riskLevel) = some (some r) ∧
      0 ≤ r ∧ r ≤ 1 :=
  claim_C8_amended.2.1 RobotMode.TRACK newConfig witnessDraws 0 0 0 [] []
    (by norm_num [witnessDraws])

/-- Claim C9: the trajectory seed has exactly 100 points; point i sits
on the orbit of angle 0.1*i around center (50, 50) with radius 30, its
risk is 0.8 plus the bounded jitter when x exceeds the center and y is
below it and 0.1 plus the jitter elsewhere, and no live telemetry
enters the computation (the function takes none). -/
theorem claim_C9 :
    ∀ (cosF sinF : ℚ → ℚ) (jitter : ℕ → ℚ),
      (generateInitialTrajectory cosF sinF jitter).length = 100 ∧
      ∀ i, i < 100 →
        (generateInitialTrajectory cosF sinF jitter)[i]? =
          some { x := 50 + 30 * cosF ((i : ℚ) * (1 / 10)),
                 y := 50 + 30 * sinF ((i : ℚ) * (1 / 10)),
                 riskLevel := some
                   ((if 50 + 30 * cosF ((i : ℚ) * (1 / 10)) > 50 ∧
                       50 + 30 * sinF ((i : ℚ) * (1 / 10)) < 50 then (4 : ℚ) / 5
                     else 1 / 10) + jitter i * (1 / 5)),
                 timestamp := none } := by
  intro cosF sinF jitter
  refine ⟨generateInitialTrajectory_length cosF sinF jitter, fun i hi => ?_⟩
  simp [generateInitialTrajectory, List.getElem?_map, List.getElem?_range, hi]

/-- Claim C9 witness: the seed's first point under concrete oracle
functions. -/
theorem claim_C9_witness :
    (generateInitialTrajectory (fun _ => 1) (fun _ => 0) (fun _ => 0))[0]? =
      some { x := 50 + 30 * 1, y := 50 + 30 * 0,
             riskLevel := some
               ((if 50 + 30 * 1 > (50 : ℚ) ∧ 50 + 30 * 0 < (50 : ℚ) then (4 : ℚ) / 5
                 else 1 / 10) + 0 * (1 / 5)),
             timestamp := none } :=
  (claim_C9 (fun _ => 1) (fun _ => 0) (fun _ => 0)).2 0 (by norm_num)

/-- Claim C10: a record merged from either transport parser's output
has slope 0, stepHeight 0, roughness 0 and traversable true — the
parsers never produce geometry or verdict keys, so those fields always
take the merge defaults, independent of any configuration. -/
theorem claim_C10 :
    (∀ (now : String) (msg : WsMsg),
      (updateSensorState now (wsParse now msg)).slope = some 0 ∧
      (updateSensorState now (wsParse now msg)).stepHeight = some 0 ∧
      (updateSensorState now (wsParse now msg)).roughness = some 0 ∧
      (updateSensorState now (wsParse now msg)).traversable = some true) ∧
    (∀ (now : String) (msg : SerialMsg) (frag : SensorFragment),
      parseData now (some msg) = some frag →
      (updateSensorState now frag).slope = some 0 ∧
      (updateSensorState now frag).stepHeight = some 0 ∧
      (updateSensorState now frag).roughness = some 0 ∧
      (updateSensorState now frag).traversable = some true) := by
  refine ⟨fun now msg => ⟨rfl, rfl, rfl, rfl⟩, fun now msg frag hf => ?_⟩
  simp only [parseData, Option.some.injEq] at hf
  subst hf
  exact ⟨rfl, rfl, rfl, rfl⟩

/-- Claim C10 witness: the merge of the parse of an empty serial
object. -/
theorem claim_C10_witness :
    (updateSensorState "00:00:00"
        ((parseData "00:00:00" (some ({} : SerialMsg))).getD {})).slope = some 0 ∧
    (updateSensorState "00:00:00"
        ((parseData "00:00:00" (some ({} : SerialMsg))).getD {})).traversable =
      some true := by
  have h := claim_C10.2 "00:00:00" {}
    ((parseData "00:00:00" (some ({} : SerialMsg))).getD {}) rfl
  exact ⟨h.1, h.2.2.2⟩

end RobotConsole
